import Mathlib

/-! Verification of the conversation-orchestration core of RipoAISUPER.

The definitions below are a shallow embedding of the interactive logic in
`src/App.tsx` (the `ChatInterface` component: `handleSendMessage`,
`handleStreamingChat`, `handleFileChange`, `resetInputs`, the tool selector
and the recording-stop handler) and of the capability gateway in the gemini
service (`generateChatResponseStream`).  Each stateful handler is embedded
as a pure function from its inputs (the snapshotted component state plus an
oracle supplying the outcome of every external call) to the ordered list of
observable actions it performs: in-memory message-list updates
(`setMessages`), persisted updates (`onUpdateConversation`, which both
replaces the conversation's message list and saves it), gateway calls, and
credential-selection dialogs.  `Date.now()` is modelled as a strictly
increasing counter threaded through the handlers; the only facts the
theorems use about it are the literal suffixes (`"-model"`, `"-video"`)
attached in the source. -/

namespace Ripo

/-- Identifier of a message: `Date.now().toString()`, possibly with a literal
suffix such as `"-model"` or `"-video"` appended, exactly as built in
`src/App.tsx`. -/
inductive MsgId where
  | time (t : Nat)
  | timeSuffix (t : Nat) (s : String)
deriving DecidableEq, Repr

/-- The `role` field of a message (`'user' | 'model'` in `types.ts`). -/
inductive Role where
  | user
  | model
deriving DecidableEq, Repr

/-- The polymorphic `Message` shape of the source: media fields are data or
object-URL references, modelled as opaque strings; `groundingChunks` are
opaque citation fragments. -/
structure Message where
  id : MsgId
  role : Role
  text : String
  image : Option String := none
  video : Option String := none
  audioSrc : Option String := none
  generatedImage : Option String := none
  generatedVideo : Option String := none
  generatedCode : Option String := none
  groundingChunks : List String := []
  error : Option String := none
deriving DecidableEq, Repr

/-- An error message as built throughout `App.tsx`:
`{ id, role: 'model', text: '', error }`. -/
def errMsg (id : MsgId) (e : String) : Message :=
  { id := id, role := Role.model, text := "", error := some e }

/-- The `ChatTool` union of the source (`activeTool` values). -/
inductive ChatTool where
  | chat
  | imageGen
  | imageEdit
  | videoGen
  | videoAnalysis
  | audioTranscription
  | canvas
deriving DecidableEq, Repr

/-- The outcome of one whole video-generation attempt (the body of the
`try` block: `generateVideo`, the 10-second polling loop, the
`operation.error` check, the URI check and `fetchVideo`), collapsed to
either a fetched video object URL or the thrown error's message. -/
inductive AttemptOutcome where
  | ok (videoUrl : String)
  | err (message : String)
deriving DecidableEq, Repr

/-- One incremental chunk of the chat stream: its text and the grounding
chunks attached to it (`[]` when `groundingMetadata` is absent). -/
structure Chunk where
  text : String
  grounding : List String
deriving DecidableEq, Repr

/-- Behaviour of one chat-stream call: either
`generateChatResponseStream` itself throws (`failStart`), or it yields a
finite list of chunks and then either ends cleanly (`midErr = none`) or
throws mid-stream (`midErr = some e`). -/
inductive StreamSpec where
  | failStart (msg : String)
  | run (chunks : List Chunk) (midErr : Option String)
deriving DecidableEq, Repr

/-- Observable actions of the handlers, in program order. `setMsgs` is the
in-memory `setMessages` call; `persist` is `onUpdateConversation` (which
replaces the conversation's message list wholesale and fires a save);
the remaining constructors are the external calls. -/
inductive AppEvent where
  | setMsgs (msgs : List Message)
  | persist (msgs : List Message)
  | checkKey
  | openKeyDialog
  | reselectKey
  | callGenerateVideo (attempt : Nat)
  | callChatStream
  | callTranscribe
  | callGenerateImage
  | callEditImage
  | callGenerateCode
deriving DecidableEq, Repr

/-- The payloads of the `persist` events of a trace, in order. -/
def persistPayloads (evs : List AppEvent) : List (List Message) :=
  evs.filterMap fun e =>
    match e with
    | AppEvent.persist msgs => some msgs
    | _ => none

/-- The payloads of the `setMsgs` events of a trace, in order. -/
def setMsgsPayloads (evs : List AppEvent) : List (List Message) :=
  evs.filterMap fun e =>
    match e with
    | AppEvent.setMsgs msgs => some msgs
    | _ => none

/-- Number of credential-reselection prompts (the `alert` +
`openSelectKey` pair in the catch block of the video pathway). -/
def countReselect (evs : List AppEvent) : Nat :=
  evs.countP fun e =>
    match e with
    | AppEvent.reselectKey => true
    | _ => false

/-- The attempt numbers of the `generateVideo` calls of a trace, in order. -/
def videoCallAttempts (evs : List AppEvent) : List Nat :=
  evs.filterMap fun e =>
    match e with
    | AppEvent.callGenerateVideo n => some n
    | _ => none

/-- Whether a persist event appends an error message (its last message has
`error` set). -/
def isErrorPersist (e : AppEvent) : Bool :=
  match e with
  | AppEvent.persist msgs => (msgs.getLast?.map fun m => m.error.isSome).getD false
  | _ => false

/-- Number of persisted error-message appends in a trace. -/
def countErrorPersists (evs : List AppEvent) : Nat :=
  evs.countP isErrorPersist

/-- `needle` starts `hay` (character-wise). Helper for `strIncludes`. -/
def charsStartWith : List Char → List Char → Bool
  | [], _ => true
  | _ :: _, [] => false
  | c :: cs, d :: ds => c == d && charsStartWith cs ds

/-- `needle` occurs contiguously in `hay`. Helper for `strIncludes`. -/
def charsContain (needle : List Char) : List Char → Bool
  | [] => charsStartWith needle []
  | d :: ds => charsStartWith needle (d :: ds) || charsContain needle ds

/-- JavaScript `hay.includes(needle)`. -/
def strIncludes (hay needle : String) : Bool :=
  charsContain needle.data hay.data

/-- JavaScript `String.prototype.trim` (restricted to ASCII whitespace). -/
def jsTrim (s : String) : String :=
  String.mk (((s.data.dropWhile Char.isWhitespace).reverse.dropWhile
    Char.isWhitespace).reverse)

/-- The literal tested by the video pathway's catch block
(`error.message?.includes(...)`). -/
def entityNotFoundMsg : String := "Requested entity was not found."

/-- The terminal error text used when the credential failure persists on the
last attempt. -/
def finalKeyError : String :=
  "Video generation failed after multiple attempts. Please check your API key and try again."

/-- The text of the status message appended at video dispatch. -/
def statusText : String := "Generating video... This may take a few minutes."

/-- The status message appended and persisted when the video pathway is
dispatched. -/
def statusMsg (id : MsgId) : Message :=
  { id := id, role := Role.model, text := statusText }

/-- The success message of the video pathway:
`{ id: ... + '-video', role: 'model', text: 'Your video has been generated!',
generatedVideo }`. -/
def videoDoneMsg (id : MsgId) (url : String) : Message :=
  { id := id, role := Role.model, text := "Your video has been generated!",
    generatedVideo := some url }

/-- The `ModelId` enum of `types.ts`, as consumed by the gemini service. -/
inductive ModelId where
  | GEMINI_FLASH
  | GEMINI_PRO
  | GEMINI_FLASH_IMAGE
  | IMAGEN
  | VEO
  | TTS
  | LIVE
deriving DecidableEq, Repr

/-- The model-selection logic of `generateChatResponseStream` (gemini
service): the effective model actually requested and the thinking budget
requested with it (`none` when no `thinkingConfig` is attached). -/
def chatEffectiveModel (model : ModelId) (hasVideo useThinkingMode : Bool) :
    ModelId × Option Nat :=
  let effectiveModel :=
    if hasVideo && model == ModelId.GEMINI_FLASH then ModelId.GEMINI_PRO else model
  if useThinkingMode then (ModelId.GEMINI_PRO, some 32768)
  else (effectiveModel, none)

/-- The retry loop of the video pathway
(`for (let attempt = 1; attempt <= maxAttempts && !videoGenerated; attempt++)`
in `handleSendMessage`, with `maxAttempts = 2`), embedded with the remaining
iteration budget as fuel.  `outcomes n` is the result of attempt `n`'s try
block; `aistudio` is the availability of `window.aistudio`; `hasKey` the
result of `hasSelectedApiKey()`. -/
def runVideoAttempts (aistudio hasKey : Bool) (outcomes : Nat → AttemptOutcome)
    (newMessages : List Message) : Nat → Nat → Nat → List AppEvent
  | 0, _, _ => []
  | fuel + 1, attempt, clock =>
      let keyEvents : List AppEvent :=
        if aistudio && attempt == 1 then
          AppEvent.checkKey :: (if hasKey then [] else [AppEvent.openKeyDialog])
        else []
      keyEvents ++ AppEvent.callGenerateVideo attempt ::
        (match outcomes attempt with
         | AttemptOutcome.ok url =>
             [AppEvent.persist (newMessages ++
               [videoDoneMsg (MsgId.timeSuffix clock ("-video")) url])]
         | AttemptOutcome.err m =>
             if aistudio && strIncludes m entityNotFoundMsg then
               if attempt < 2 then
                 AppEvent.reselectKey ::
                   runVideoAttempts aistudio hasKey outcomes newMessages fuel
                     (attempt + 1) (clock + 1)
               else
                 [AppEvent.persist (newMessages ++
                   [errMsg (MsgId.time clock) finalKeyError])]
             else
               [AppEvent.persist (newMessages ++
                 [errMsg (MsgId.time clock)
                   ("Video generation failed: " ++ m)])])

/-- The whole `case 'video-gen'` branch of `handleSendMessage`: persist the
status message, then run the attempt loop with budget 2. -/
def videoGenPathway (aistudio hasKey : Bool) (outcomes : Nat → AttemptOutcome)
    (newMessages : List Message) (clock : Nat) : List AppEvent :=
  AppEvent.persist (newMessages ++ [statusMsg (MsgId.time clock)]) ::
    runVideoAttempts aistudio hasKey outcomes newMessages 2 1 (clock + 1)

/-- A streaming model message as rebuilt after every chunk:
`{ id, role: 'model', text, groundingChunks }`. -/
def streamMsg (id : MsgId) (t : String) (g : List String) : Message :=
  { id := id, role := Role.model, text := t, groundingChunks := g }

/-- The final value of `modelResponseText`: left-accumulation of the chunk
texts onto `a`, mirroring `modelResponseText += chunk.text`. -/
def accText (a : String) : List Chunk → String
  | [] => a
  | c :: cs => accText (a ++ c.text) cs

/-- The final value of the `chunks` citation accumulator, mirroring
`chunks.push(...)`. -/
def accGround (g : List String) : List Chunk → List String
  | [] => g
  | c :: cs => accGround (g ++ c.grounding) cs

/-- The per-chunk `setMessages` updates of the streaming loop: after each
chunk the message with the accumulated text and citations so far replaces
the placeholder (same id). -/
def streamingUpdates (base : List Message) (id : MsgId) :
    String → List String → List Chunk → List AppEvent
  | _, _, [] => []
  | a, g, c :: cs =>
      AppEvent.setMsgs (base ++ [streamMsg id (a ++ c.text) (g ++ c.grounding)]) ::
        streamingUpdates base id (a ++ c.text) (g ++ c.grounding) cs

/-- `handleStreamingChat` from `src/App.tsx`: obtain the stream (which may
throw), persist a placeholder (`text: "..."`), apply every chunk to the
in-memory list only, and persist exactly once at stream end; a failure
anywhere is caught and persisted as a fresh error message appended to
`currentMessages` (which does not contain the placeholder). -/
def handleStreamingChat (currentMessages : List Message) (stream : StreamSpec)
    (clock : Nat) : List AppEvent :=
  match stream with
  | StreamSpec.failStart e =>
      [AppEvent.callChatStream,
       AppEvent.persist (currentMessages ++ [errMsg (MsgId.time clock) e])]
  | StreamSpec.run chunks midErr =>
      let id := MsgId.timeSuffix clock ("-model")
      AppEvent.callChatStream ::
        AppEvent.persist (currentMessages ++ [streamMsg id ("...") []]) ::
          (streamingUpdates currentMessages id ("") [] chunks ++
            (match midErr with
             | none =>
                 [AppEvent.persist (currentMessages ++
                   [streamMsg id (accText ("") chunks) (accGround [] chunks)])]
             | some e =>
                 [AppEvent.persist (currentMessages ++
                   [errMsg (MsgId.time (clock + 1)) e])]))

/-- The ephemeral pending-turn state of `ChatInterface`: the text input, the
at-most-one attached image or video (file handle and preview data URL), and
the selected tool. -/
structure PendingTurn where
  input : String
  imageFile : Option String := none
  imageUrl : Option String := none
  videoFile : Option String := none
  videoUrl : Option String := none
  activeTool : ChatTool := ChatTool.chat
deriving DecidableEq, Repr

/-- `resetInputs` from `src/App.tsx`: clears the text input and every
attachment (the tool is untouched). -/
def resetInputs (st : PendingTurn) : PendingTurn :=
  { st with input := "", imageFile := none, imageUrl := none,
            videoFile := none, videoUrl := none }

/-- The MIME-type discrimination of `handleFileChange`. -/
inductive FileKind where
  | image
  | video
  | other
deriving DecidableEq, Repr

/-- `handleFileChange` from `src/App.tsx`: clear all inputs, then attach the
selected file under the slot matching its MIME type.  (The data URL is
produced asynchronously in the source; it is modelled as attached together
with the file.) -/
def handleFileChange (st : PendingTurn) (kind : FileKind) (file dataUrl : String) :
    PendingTurn :=
  let st2 := resetInputs st
  match kind with
  | FileKind.image => { st2 with imageFile := some file, imageUrl := some dataUrl }
  | FileKind.video => { st2 with videoFile := some file, videoUrl := some dataUrl }
  | FileKind.other => st2

/-- The tool-selection click in `ChatInterface`: set the tool and reset all
inputs. -/
def selectTool (st : PendingTurn) (t : ChatTool) : PendingTurn :=
  resetInputs { st with activeTool := t }

/-- `setInput` from the textarea. -/
def setInputText (st : PendingTurn) (s : String) : PendingTurn :=
  { st with input := s }

/-- The pending-turn invariant of the spec: at most one media attachment is
active at a time. -/
def atMostOneAttachment (st : PendingTurn) : Prop :=
  st.imageFile = none ∨ st.videoFile = none

instance (st : PendingTurn) : Decidable (atMostOneAttachment st) := by
  unfold atMostOneAttachment; infer_instance

/-- The tool id strings of the source (`CHAT_TOOLS`). -/
def toolId : ChatTool → String
  | ChatTool.chat => "chat"
  | ChatTool.imageGen => "image-gen"
  | ChatTool.imageEdit => "image-edit"
  | ChatTool.videoGen => "video-gen"
  | ChatTool.videoAnalysis => "video-analysis"
  | ChatTool.audioTranscription => "audio-transcription"
  | ChatTool.canvas => "canvas"

/-- JavaScript `s.replace('-', ' ')`: only the first occurrence is
replaced. -/
def replaceFirstDash : List Char → List Char
  | [] => []
  | c :: cs => if c == '-' then ' ' :: cs else c :: replaceFirstDash cs

/-- The caption of the single-shot model message:
`Here is the (tool id with '-' replaced) you requested.` -/
def toolCaption (t : ChatTool) : String :=
  "Here is the " ++ String.mk (replaceFirstDash (toolId t).data) ++ " you requested."

/-- The oracle for every external call a send action can make: availability
of `window.aistudio`, the `hasSelectedApiKey()` result, the outcome of each
video attempt, the results of the single-shot gateway calls, and the chat
stream's behaviour. -/
structure GatewayEnv where
  aistudio : Bool
  hasKey : Bool
  videoOutcomes : Nat → AttemptOutcome
  imageGenResult : Except String String
  editImageResult : Except String String
  codeGenResult : Except String String
  chatStream : StreamSpec

/-- `handleSendMessage` from `src/App.tsx`, as a trace of observable
actions.  The guard of line 440 returns the empty trace; otherwise the
optimistic user turn is appended in memory and the selected tool's pathway
runs.  Generation parameters that only feed the gateway (aspect ratio,
search and thinking flags, conversation model) are absorbed by the oracle's
outcomes. -/
def handleSendMessage (env : GatewayEnv) (st : PendingTurn)
    (messages : List Message) (clock : Nat) : List AppEvent :=
  if jsTrim st.input = "" ∧ st.imageFile = none ∧ st.videoFile = none then []
  else
    let userMessage : Message :=
      { id := MsgId.time clock, role := Role.user, text := st.input,
        image := st.imageUrl, video := st.videoUrl }
    let newMessages := messages ++ [userMessage]
    AppEvent.setMsgs newMessages ::
      match st.activeTool with
      | ChatTool.imageGen =>
          AppEvent.callGenerateImage ::
            (match env.imageGenResult with
             | Except.ok img =>
                 [AppEvent.persist (newMessages ++
                   [{ id := MsgId.timeSuffix (clock + 1) ("-model"),
                      role := Role.model, text := toolCaption ChatTool.imageGen,
                      generatedImage := some img }])]
             | Except.error e =>
                 [AppEvent.persist (newMessages ++
                   [errMsg (MsgId.time (clock + 1)) e])])
      | ChatTool.imageEdit =>
          (match st.imageFile with
           | none =>
               [AppEvent.persist (newMessages ++
                 [errMsg (MsgId.time (clock + 1))
                   ("Please upload an image to edit.")])]
           | some _ =>
               AppEvent.callEditImage ::
                 (match env.editImageResult with
                  | Except.ok img =>
                      [AppEvent.persist (newMessages ++
                        [{ id := MsgId.timeSuffix (clock + 1) ("-model"),
                           role := Role.model,
                           text := toolCaption ChatTool.imageEdit,
                           generatedImage := some img }])]
                  | Except.error e =>
                      [AppEvent.persist (newMessages ++
                        [errMsg (MsgId.time (clock + 1)) e])]))
      | ChatTool.canvas =>
          AppEvent.callGenerateCode ::
            (match env.codeGenResult with
             | Except.ok code =>
                 [AppEvent.persist (newMessages ++
                   [{ id := MsgId.timeSuffix (clock + 1) ("-model"),
                      role := Role.model, text := toolCaption ChatTool.canvas,
                      generatedCode := some code }])]
             | Except.error e =>
                 [AppEvent.persist (newMessages ++
                   [errMsg (MsgId.time (clock + 1)) e])])
      | ChatTool.videoGen =>
          videoGenPathway env.aistudio env.hasKey env.videoOutcomes newMessages
            (clock + 1)
      | _ => handleStreamingChat newMessages env.chatStream (clock + 1)

/-- The model message built by the recording-stop handler on a successful
transcription, or the error message on failure. -/
def transcriptionOutcome (result : Except String String) (clock : Nat) : Message :=
  match result with
  | Except.ok t =>
      { id := MsgId.timeSuffix clock ("-model"), role := Role.model, text := t }
  | Except.error e => errMsg (MsgId.time clock) e

/-- The `mediaRecorder.onstop` handler of `handleStartRecording`: append the
user turn carrying the audio artifact in memory, request the transcription,
then persist the list extended with the outcome message. -/
def handleRecordingStop (messages : List Message) (audioUrl : String)
    (result : Except String String) (clock : Nat) : List AppEvent :=
  let userMessage : Message :=
    { id := MsgId.time clock, role := Role.user, text := "Audio recording",
      audioSrc := some audioUrl }
  let newMessages := messages ++ [userMessage]
  AppEvent.setMsgs newMessages ::
    AppEvent.callTranscribe ::
      [AppEvent.persist (newMessages ++ [transcriptionOutcome result (clock + 1)])]

/-- Spec-side concatenation of a list of strings, in order. -/
def joinAll : List String → String
  | [] => ""
  | s :: ss => s ++ joinAll ss

/-- Spec-side concatenation of a list of citation-fragment lists, in
order and without deduplication. -/
def flatAll : List (List String) → List String
  | [] => []
  | g :: gs => g ++ flatAll gs

/-- Two concrete stream chunks (with a duplicated citation fragment) used by
the concrete witnesses. -/
def demoChunks : List Chunk :=
  [{ text := "Hel", grounding := ["src"] }, { text := "lo", grounding := ["src"] }]

/-- A sample oracle used by the concrete witnesses. -/
def sampleEnv : GatewayEnv :=
  { aistudio := true, hasKey := true,
    videoOutcomes := fun _ => AttemptOutcome.ok ("blob:video"),
    imageGenResult := Except.ok ("img"),
    editImageResult := Except.ok ("img"),
    codeGenResult := Except.ok ("code"),
    chatStream := StreamSpec.run [] none }

end Ripo

namespace Ripo

/-! Helper lemmas shared by several claims. -/

theorem persistPayloads_streamingUpdates (base : List Message) (id : MsgId)
    (cs : List Chunk) : ∀ (a : String) (g : List String),
    persistPayloads (streamingUpdates base id a g cs) = [] := by
  induction cs with
  | nil => intro a g; rfl
  | cons c cs ih =>
      intro a g
      simpa [streamingUpdates, persistPayloads] using
        ih (a ++ c.text) (g ++ c.grounding)

theorem setMsgsPayloads_streamingUpdates (base : List Message) (id : MsgId)
    (cs : List Chunk) : ∀ (a : String) (g : List String),
    setMsgsPayloads (streamingUpdates base id a g cs) =
      (List.range cs.length).map (fun k =>
        base ++ [streamMsg id (a ++ joinAll ((cs.take (k + 1)).map Chunk.text))
                             (g ++ flatAll ((cs.take (k + 1)).map Chunk.grounding))]) := by
  induction cs with
  | nil => intro a g; rfl
  | cons c cs ih =>
      intro a g
      rw [List.length_cons, List.range_succ_eq_map, List.map_cons, List.map_map]
      have head :
          setMsgsPayloads (streamingUpdates base id a g (c :: cs)) =
            (base ++ [streamMsg id (a ++ c.text) (g ++ c.grounding)]) ::
              setMsgsPayloads (streamingUpdates base id (a ++ c.text) (g ++ c.grounding) cs) := rfl
      rw [head, ih (a ++ c.text) (g ++ c.grounding)]
      congr 1
      · simp [joinAll, flatAll, String.append_empty]
      · refine List.map_congr_left ?_
        intro k _
        simp [Function.comp, joinAll, flatAll, String.append_assoc, List.append_assoc]

theorem accText_eq (cs : List Chunk) : ∀ a : String,
    accText a cs = a ++ joinAll (cs.map Chunk.text) := by
  induction cs with
  | nil => intro a; simp [accText, joinAll, String.append_empty]
  | cons c cs ih =>
      intro a
      simp [accText, joinAll, ih (a ++ c.text), String.append_assoc]

theorem accGround_eq (cs : List Chunk) : ∀ g : List String,
    accGround g cs = g ++ flatAll (cs.map Chunk.grounding) := by
  induction cs with
  | nil => intro g; simp [accGround, flatAll]
  | cons c cs ih =>
      intro g
      simp [accGround, flatAll, ih (g ++ c.grounding)]

theorem setMsgsPayloads_streamingUpdates_getLast (base : List Message) (id : MsgId)
    (cs : List Chunk) : ∀ (a : String) (g : List String), cs ≠ [] →
    (setMsgsPayloads (streamingUpdates base id a g cs)).getLast? =
      some (base ++ [streamMsg id (accText a cs) (accGround g cs)]) := by
  induction cs with
  | nil => intro a g h; exact absurd rfl h
  | cons c cs ih =>
      intro a g _
      cases cs with
      | nil => rfl
      | cons d ds =>
          have head :
              setMsgsPayloads (streamingUpdates base id a g (c :: d :: ds)) =
                (base ++ [streamMsg id (a ++ c.text) (g ++ c.grounding)]) ::
                  (base ++ [streamMsg id (a ++ c.text ++ d.text)
                    (g ++ c.grounding ++ d.grounding)]) ::
                  setMsgsPayloads (streamingUpdates base id
                    (a ++ c.text ++ d.text) (g ++ c.grounding ++ d.grounding) ds) := rfl
          have tail :
              setMsgsPayloads (streamingUpdates base id (a ++ c.text) (g ++ c.grounding)
                  (d :: ds)) =
                (base ++ [streamMsg id (a ++ c.text ++ d.text)
                  (g ++ c.grounding ++ d.grounding)]) ::
                  setMsgsPayloads (streamingUpdates base id
                    (a ++ c.text ++ d.text) (g ++ c.grounding ++ d.grounding) ds) := rfl
      -- last element of a cons-cons list is the last of the tail
          rw [head, List.getLast?_cons_cons, ← tail,
            ih (a ++ c.text) (g ++ c.grounding) (by simp)]
          rfl

theorem runVideoAttempts_succ (aistudio hasKey : Bool) (outcomes : Nat → AttemptOutcome)
    (newMessages : List Message) (fuel attempt clock : Nat) :
    runVideoAttempts aistudio hasKey outcomes newMessages (fuel + 1) attempt clock =
      (if aistudio && attempt == 1 then
          AppEvent.checkKey :: (if hasKey then [] else [AppEvent.openKeyDialog])
        else []) ++ AppEvent.callGenerateVideo attempt ::
        (match outcomes attempt with
         | AttemptOutcome.ok url =>
             [AppEvent.persist (newMessages ++
               [videoDoneMsg (MsgId.timeSuffix clock ("-video")) url])]
         | AttemptOutcome.err m =>
             if aistudio && strIncludes m entityNotFoundMsg then
               if attempt < 2 then
                 AppEvent.reselectKey ::
                   runVideoAttempts aistudio hasKey outcomes newMessages fuel
                     (attempt + 1) (clock + 1)
               else
                 [AppEvent.persist (newMessages ++
                   [errMsg (MsgId.time clock) finalKeyError])]
             else
               [AppEvent.persist (newMessages ++
                 [errMsg (MsgId.time clock)
                   ("Video generation failed: " ++ m)])]) := rfl

/-! The claims. -/

/-- C7: for every chat-stream call, a video attachment with the fast tier
requested upgrades the effective model to the capable tier, and the thinking
flag always forces the capable tier together with a 32768 reasoning
budget. -/
theorem C7_chat_model_upgrade (model : ModelId) (hasVideo thinking : Bool) :
    (hasVideo = true → model = ModelId.GEMINI_FLASH →
      (chatEffectiveModel model hasVideo thinking).1 = ModelId.GEMINI_PRO)
  ∧ (thinking = true →
      chatEffectiveModel model hasVideo thinking = (ModelId.GEMINI_PRO, some 32768)) := by
  cases model <;> cases hasVideo <;> cases thinking <;> simp [chatEffectiveModel]

theorem C7_witness :
    (chatEffectiveModel ModelId.GEMINI_FLASH true false).1 = ModelId.GEMINI_PRO
  ∧ chatEffectiveModel ModelId.GEMINI_FLASH false true = (ModelId.GEMINI_PRO, some 32768) :=
  ⟨(C7_chat_model_upgrade ModelId.GEMINI_FLASH true false).1 rfl rfl,
   (C7_chat_model_upgrade ModelId.GEMINI_FLASH false true).2 rfl⟩

/-- C5: a send action whose text input trims to empty and which carries no
image or video attachment is a no-op: the trace is empty, so no message is
appended, nothing is persisted and no gateway call is made. -/
theorem C5_blank_send_is_noop (env : GatewayEnv) (st : PendingTurn)
    (messages : List Message) (clock : Nat)
    (hIn : jsTrim st.input = "") (hImg : st.imageFile = none)
    (hVid : st.videoFile = none) :
    handleSendMessage env st messages clock = [] := by
  simp [handleSendMessage, hIn, hImg, hVid]

theorem C5_witness :
    jsTrim ("   ") = ""
  ∧ handleSendMessage sampleEnv { input := "   " } [] 0 = [] :=
  ⟨by decide, C5_blank_send_is_noop sampleEnv { input := "   " } [] 0 (by decide) rfl rfl⟩

/-- C9: at most one media attachment is active in the pending turn, the
invariant is preserved by every operation, selecting a new attachment clears
the previous one, and switching the active tool clears any attachment. -/
theorem C9_at_most_one_attachment (st : PendingTurn) (kind : FileKind)
    (file dataUrl : String) (t : ChatTool) (s : String) :
    atMostOneAttachment (resetInputs st)
  ∧ atMostOneAttachment (handleFileChange st kind file dataUrl)
  ∧ (handleFileChange st FileKind.image file dataUrl).videoFile = none
  ∧ (handleFileChange st FileKind.video file dataUrl).imageFile = none
  ∧ atMostOneAttachment (selectTool st t)
  ∧ (selectTool st t).imageFile = none
  ∧ (selectTool st t).videoFile = none
  ∧ (atMostOneAttachment st → atMostOneAttachment (setInputText st s)) := by
  refine ⟨?_, ?_, ?_, ?_, ?_, ?_, ?_, ?_⟩
  · simp [resetInputs, atMostOneAttachment]
  · cases kind <;> simp [handleFileChange, resetInputs, atMostOneAttachment]
  · simp [handleFileChange, resetInputs]
  · simp [handleFileChange, resetInputs]
  · simp [selectTool, resetInputs, atMostOneAttachment]
  · simp [selectTool, resetInputs]
  · simp [selectTool, resetInputs]
  · intro h; simpa [setInputText, atMostOneAttachment] using h

theorem C9_witness :
    atMostOneAttachment ({ input := "" } : PendingTurn)
  ∧ atMostOneAttachment (setInputText ({ input := "" } : PendingTurn) ("hi")) :=
  ⟨by decide,
   (C9_at_most_one_attachment { input := "" } FileKind.image ("f") ("u")
      ChatTool.chat ("hi")).2.2.2.2.2.2.2 (by decide)⟩

end Ripo

namespace Ripo

/-- C8 counterexample: in a concrete transcription run the persisted updates
all occur after the transcription request — no persist event precedes
`callTranscribe`, refuting that the user turn is persisted before the
request is issued (it is only set in memory first). -/
theorem C8_counterexample :
    persistPayloads ((handleRecordingStop [] ("blob:audio") (Except.ok ("hello")) 0).takeWhile
      (fun e => e != AppEvent.callTranscribe)) = []
  ∧ persistPayloads (handleRecordingStop [] ("blob:audio") (Except.ok ("hello")) 0) ≠ [] := by
  decide

/-- C8 amended: the user turn carrying the audio artifact is appended to the
in-memory list before the transcription request, but is persisted only
together with the outcome message: on success a model message carrying the
transcript, on failure an error message. -/
theorem C8_amended_transcription_order (messages : List Message) (audioUrl : String)
    (result : Except String String) (clock : Nat) :
    handleRecordingStop messages audioUrl result clock =
      [AppEvent.setMsgs (messages ++
         [{ id := MsgId.time clock, role := Role.user, text := "Audio recording",
            audioSrc := some audioUrl }]),
       AppEvent.callTranscribe,
       AppEvent.persist ((messages ++
         [{ id := MsgId.time clock, role := Role.user, text := "Audio recording",
            audioSrc := some audioUrl }]) ++ [transcriptionOutcome result (clock + 1)])]
  ∧ (∀ t, result = Except.ok t → transcriptionOutcome result (clock + 1) =
      { id := MsgId.timeSuffix (clock + 1) ("-model"), role := Role.model, text := t })
  ∧ (∀ e, result = Except.error e → transcriptionOutcome result (clock + 1) =
      errMsg (MsgId.time (clock + 1)) e) := by
  refine ⟨rfl, ?_, ?_⟩
  · intro t ht; rw [ht]; rfl
  · intro e he; rw [he]; rfl

theorem C8_amended_witness :
    transcriptionOutcome (Except.ok ("hi")) 1 =
      { id := MsgId.timeSuffix 1 ("-model"), role := Role.model, text := "hi" } :=
  (C8_amended_transcription_order [] ("a") (Except.ok ("hi")) 0).2.1 ("hi") rfl

/-- C3: a video-generation failure whose message does not contain the
credential marker produces exactly one persisted terminal error message and
stops after attempt 1 — no reselection prompt, no second `generateVideo`
call — whatever the would-be outcome of attempt 2. -/
theorem C3_noncredential_failure_stops (aistudio hasKey : Bool) (m1 : String)
    (out2 : AttemptOutcome) (newMessages : List Message) (clock : Nat)
    (h1 : strIncludes m1 entityNotFoundMsg = false) :
    videoCallAttempts (videoGenPathway aistudio hasKey
        (fun n => if n == 1 then AttemptOutcome.err m1 else out2) newMessages clock) = [1]
  ∧ countReselect (videoGenPathway aistudio hasKey
        (fun n => if n == 1 then AttemptOutcome.err m1 else out2) newMessages clock) = 0
  ∧ persistPayloads (videoGenPathway aistudio hasKey
        (fun n => if n == 1 then AttemptOutcome.err m1 else out2) newMessages clock) =
      [newMessages ++ [statusMsg (MsgId.time clock)],
       newMessages ++ [errMsg (MsgId.time (clock + 1))
         (("Video generation failed: ") ++ m1)]]
  ∧ countErrorPersists (videoGenPathway aistudio hasKey
        (fun n => if n == 1 then AttemptOutcome.err m1 else out2) newMessages clock) = 1
  ∧ (videoGenPathway aistudio hasKey
        (fun n => if n == 1 then AttemptOutcome.err m1 else out2) newMessages clock).getLast? =
      some (AppEvent.persist (newMessages ++
        [errMsg (MsgId.time (clock + 1)) (("Video generation failed: ") ++ m1)])) := by
  cases aistudio <;> cases hasKey <;>
    simp [videoGenPathway, runVideoAttempts_succ, h1, videoCallAttempts, countReselect,
      persistPayloads, countErrorPersists, isErrorPersist, statusMsg, errMsg]

theorem C3_witness :
    strIncludes ("quota exceeded") entityNotFoundMsg = false
  ∧ videoCallAttempts (videoGenPathway true true
      (fun n => if n == 1 then AttemptOutcome.err ("quota exceeded")
                else AttemptOutcome.ok ("u")) [] 0) = [1] :=
  ⟨by decide,
   (C3_noncredential_failure_stops true true ("quota exceeded")
     (AttemptOutcome.ok ("u")) [] 0 (by decide)).1⟩

/-- C10: when `window.aistudio` is unavailable, even a failure carrying the
credential marker is handled by the generic branch: one persisted terminal
error, no reselection prompt, no retry. -/
theorem C10_no_aistudio_no_retry (hasKey : Bool) (m1 : String)
    (out2 : AttemptOutcome) (newMessages : List Message) (clock : Nat)
    (h1 : strIncludes m1 entityNotFoundMsg = true) :
    videoCallAttempts (videoGenPathway false hasKey
        (fun n => if n == 1 then AttemptOutcome.err m1 else out2) newMessages clock) = [1]
  ∧ countReselect (videoGenPathway false hasKey
        (fun n => if n == 1 then AttemptOutcome.err m1 else out2) newMessages clock) = 0
  ∧ persistPayloads (videoGenPathway false hasKey
        (fun n => if n == 1 then AttemptOutcome.err m1 else out2) newMessages clock) =
      [newMessages ++ [statusMsg (MsgId.time clock)],
       newMessages ++ [errMsg (MsgId.time (clock + 1))
         (("Video generation failed: ") ++ m1)]]
  ∧ countErrorPersists (videoGenPathway false hasKey
        (fun n => if n == 1 then AttemptOutcome.err m1 else out2) newMessages clock) = 1
  ∧ (videoGenPathway false hasKey
        (fun n => if n == 1 then AttemptOutcome.err m1 else out2) newMessages clock).getLast? =
      some (AppEvent.persist (newMessages ++
        [errMsg (MsgId.time (clock + 1)) (("Video generation failed: ") ++ m1)])) := by
  cases hasKey <;>
    simp [videoGenPathway, runVideoAttempts_succ, h1, videoCallAttempts, countReselect,
      persistPayloads, countErrorPersists, isErrorPersist, statusMsg, errMsg]

theorem C10_witness :
    strIncludes entityNotFoundMsg entityNotFoundMsg = true
  ∧ countReselect (videoGenPathway false true
      (fun n => if n == 1 then AttemptOutcome.err entityNotFoundMsg
                else AttemptOutcome.ok ("u")) [] 0) = 0 :=
  ⟨by decide,
   (C10_no_aistudio_no_retry true entityNotFoundMsg (AttemptOutcome.ok ("u")) [] 0
     (by decide)).2.1⟩

/-- C2: with the credential-selection capability available, a credential
failure on attempt 1 yields exactly one reselection prompt and exactly one
retry (attempt 2, whatever its outcome); a credential failure on attempt 2
as well yields exactly one persisted terminal error and no further
attempt. -/
theorem C2_video_credential_retry (hasKey : Bool) (m1 m2 : String)
    (out2 : AttemptOutcome) (newMessages : List Message) (clock : Nat)
    (h1 : strIncludes m1 entityNotFoundMsg = true)
    (h2 : strIncludes m2 entityNotFoundMsg = true) :
    (countReselect (videoGenPathway true hasKey
        (fun n => if n == 1 then AttemptOutcome.err m1 else out2) newMessages clock) = 1
     ∧ videoCallAttempts (videoGenPathway true hasKey
        (fun n => if n == 1 then AttemptOutcome.err m1 else out2) newMessages clock) = [1, 2])
  ∧ (countErrorPersists (videoGenPathway true hasKey
        (fun n => if n == 1 then AttemptOutcome.err m1 else AttemptOutcome.err m2)
        newMessages clock) = 1
     ∧ persistPayloads (videoGenPathway true hasKey
        (fun n => if n == 1 then AttemptOutcome.err m1 else AttemptOutcome.err m2)
        newMessages clock) =
          [newMessages ++ [statusMsg (MsgId.time clock)],
           newMessages ++ [errMsg (MsgId.time (clock + 2)) finalKeyError]]
     ∧ videoCallAttempts (videoGenPathway true hasKey
        (fun n => if n == 1 then AttemptOutcome.err m1 else AttemptOutcome.err m2)
        newMessages clock) = [1, 2]
     ∧ (videoGenPathway true hasKey
        (fun n => if n == 1 then AttemptOutcome.err m1 else AttemptOutcome.err m2)
        newMessages clock).getLast? =
          some (AppEvent.persist (newMessages ++
            [errMsg (MsgId.time (clock + 2)) finalKeyError]))) := by
  constructor
  · cases out2 with
    | ok url =>
        cases hasKey <;>
          simp [videoGenPathway, runVideoAttempts_succ, h1, videoCallAttempts,
            countReselect]
    | err m =>
        cases hm : strIncludes m entityNotFoundMsg <;> cases hasKey <;>
          simp [videoGenPathway, runVideoAttempts_succ, h1, hm, videoCallAttempts,
            countReselect]
  · cases hasKey <;>
      simp [videoGenPathway, runVideoAttempts_succ, h1, h2, videoCallAttempts,
        countReselect, persistPayloads, countErrorPersists, isErrorPersist,
        statusMsg, errMsg]

theorem C2_witness :
    strIncludes entityNotFoundMsg entityNotFoundMsg = true
  ∧ countReselect (videoGenPathway true true
      (fun n => if n == 1 then AttemptOutcome.err entityNotFoundMsg
                else AttemptOutcome.err entityNotFoundMsg) [] 0) = 1 :=
  ⟨by decide,
   (C2_video_credential_retry true entityNotFoundMsg entityNotFoundMsg
      (AttemptOutcome.err entityNotFoundMsg) [] 0 (by decide) (by decide)).1.1⟩

end Ripo

namespace Ripo

theorem persistPayloads_cons_call (evs : List AppEvent) :
    persistPayloads (AppEvent.callChatStream :: evs) = persistPayloads evs := rfl

theorem persistPayloads_cons_persist (m : List Message) (evs : List AppEvent) :
    persistPayloads (AppEvent.persist m :: evs) = m :: persistPayloads evs := rfl

theorem persistPayloads_append (xs ys : List AppEvent) :
    persistPayloads (xs ++ ys) = persistPayloads xs ++ persistPayloads ys := by
  simp [persistPayloads]

theorem setMsgsPayloads_cons_call (evs : List AppEvent) :
    setMsgsPayloads (AppEvent.callChatStream :: evs) = setMsgsPayloads evs := rfl

theorem setMsgsPayloads_cons_persist (m : List Message) (evs : List AppEvent) :
    setMsgsPayloads (AppEvent.persist m :: evs) = setMsgsPayloads evs := rfl

theorem setMsgsPayloads_append (xs ys : List AppEvent) :
    setMsgsPayloads (xs ++ ys) = setMsgsPayloads xs ++ setMsgsPayloads ys := by
  simp [setMsgsPayloads]

theorem errMsg_ne_statusMsg (id1 id2 : MsgId) (e : String) :
    errMsg id1 e ≠ statusMsg id2 := by
  intro h
  simpa [errMsg, statusMsg] using congrArg Message.error h

theorem videoDoneMsg_ne_statusMsg (id1 id2 : MsgId) (url : String) :
    videoDoneMsg id1 url ≠ statusMsg id2 := by
  intro h
  have ht := congrArg Message.text h
  simp [videoDoneMsg, statusMsg, statusText] at ht

/-- C1 counterexample: in a concrete successful video run the status message
is in the first persisted update but absent from the last one — the terminal
update rebuilds the list from the pre-status snapshot, so the status message
is not retained after the pathway reaches a terminal state. -/
theorem C1_counterexample :
    (persistPayloads (videoGenPathway true true
        (fun _ => AttemptOutcome.ok ("blob:v")) [] 0)).head? =
      some [statusMsg (MsgId.time 0)]
  ∧ statusMsg (MsgId.time 0) ∉
      ((persistPayloads (videoGenPathway true true
        (fun _ => AttemptOutcome.ok ("blob:v")) [] 0)).getLast?.getD []) := by
  decide

/-- C1 amended: the status message is appended and persisted at dispatch,
distinct from the eventual result message; but the terminal update persists
the pre-status messages plus the terminal message only, so the status
message is dropped from the persisted list rather than retained. -/
theorem C1_amended_status_not_retained (aistudio hasKey : Bool)
    (outcomes : Nat → AttemptOutcome) (newMessages : List Message) (clock : Nat) :
    ∃ t : Message,
      persistPayloads (videoGenPathway aistudio hasKey outcomes newMessages clock) =
        [newMessages ++ [statusMsg (MsgId.time clock)], newMessages ++ [t]]
    ∧ t ≠ statusMsg (MsgId.time clock) := by
  cases h1 : outcomes 1 with
  | ok url =>
      refine ⟨videoDoneMsg (MsgId.timeSuffix (clock + 1) ("-video")) url, ?_,
        videoDoneMsg_ne_statusMsg _ _ _⟩
      cases aistudio <;> cases hasKey <;>
        simp [videoGenPathway, runVideoAttempts_succ, h1, persistPayloads]
  | err m =>
      cases ha : aistudio with
      | false =>
          refine ⟨errMsg (MsgId.time (clock + 1)) (("Video generation failed: ") ++ m),
            ?_, errMsg_ne_statusMsg _ _ _⟩
          cases hasKey <;>
            simp [videoGenPathway, runVideoAttempts_succ, h1, persistPayloads]
      | true =>
          cases hc : strIncludes m entityNotFoundMsg with
          | false =>
              refine ⟨errMsg (MsgId.time (clock + 1))
                (("Video generation failed: ") ++ m), ?_, errMsg_ne_statusMsg _ _ _⟩
              cases hasKey <;>
                simp [videoGenPathway, runVideoAttempts_succ, h1, hc, persistPayloads]
          | true =>
              cases h2 : outcomes 2 with
              | ok url2 =>
                  refine ⟨videoDoneMsg (MsgId.timeSuffix (clock + 2) ("-video")) url2,
                    ?_, videoDoneMsg_ne_statusMsg _ _ _⟩
                  cases hasKey <;>
                    simp [videoGenPathway, runVideoAttempts_succ, h1, h2, hc,
                      persistPayloads]
              | err m2 =>
                  cases hc2 : strIncludes m2 entityNotFoundMsg with
                  | false =>
                      refine ⟨errMsg (MsgId.time (clock + 2))
                        (("Video generation failed: ") ++ m2), ?_,
                        errMsg_ne_statusMsg _ _ _⟩
                      cases hasKey <;>
                        simp [videoGenPathway, runVideoAttempts_succ, h1, h2, hc, hc2,
                          persistPayloads]
                  | true =>
                      refine ⟨errMsg (MsgId.time (clock + 2)) finalKeyError, ?_,
                        errMsg_ne_statusMsg _ _ _⟩
                      cases hasKey <;>
                        simp [videoGenPathway, runVideoAttempts_succ, h1, h2, hc, hc2,
                          persistPayloads]

/-- C4: for every finite stream, the in-memory update after chunk `k` shows
exactly the concatenation of the first `k + 1` chunk texts and the
concatenation (in arrival order, without deduplication) of their citation
fragments; the only persisted updates are the placeholder and the final
message, whose text and citations are the full concatenations; and at
stream end the persisted final message list equals the last in-memory
one. -/
theorem C4_streaming_accumulation (base : List Message) (chunks : List Chunk)
    (clock : Nat) :
    setMsgsPayloads (handleStreamingChat base (StreamSpec.run chunks none) clock) =
      (List.range chunks.length).map (fun k =>
        base ++ [streamMsg (MsgId.timeSuffix clock ("-model"))
          (joinAll ((chunks.take (k + 1)).map Chunk.text))
          (flatAll ((chunks.take (k + 1)).map Chunk.grounding))])
  ∧ persistPayloads (handleStreamingChat base (StreamSpec.run chunks none) clock) =
      [base ++ [streamMsg (MsgId.timeSuffix clock ("-model")) ("...") []],
       base ++ [streamMsg (MsgId.timeSuffix clock ("-model"))
         (joinAll (chunks.map Chunk.text)) (flatAll (chunks.map Chunk.grounding))]]
  ∧ (chunks ≠ [] →
      (setMsgsPayloads (handleStreamingChat base (StreamSpec.run chunks none) clock)).getLast? =
        (persistPayloads (handleStreamingChat base (StreamSpec.run chunks none) clock)).getLast?) := by
  have trace : handleStreamingChat base (StreamSpec.run chunks none) clock =
      AppEvent.callChatStream ::
        AppEvent.persist (base ++
          [streamMsg (MsgId.timeSuffix clock ("-model")) ("...") []]) ::
          (streamingUpdates base (MsgId.timeSuffix clock ("-model")) ("") [] chunks ++
            [AppEvent.persist (base ++
              [streamMsg (MsgId.timeSuffix clock ("-model"))
                (accText ("") chunks) (accGround [] chunks)])]) := rfl
  refine ⟨?_, ?_, ?_⟩
  · rw [trace, setMsgsPayloads_cons_call, setMsgsPayloads_cons_persist,
      setMsgsPayloads_append,
      setMsgsPayloads_streamingUpdates base (MsgId.timeSuffix clock ("-model")) chunks ("") []]
    simp [setMsgsPayloads, String.empty_append]
  · rw [trace, persistPayloads_cons_call, persistPayloads_cons_persist,
      persistPayloads_append,
      persistPayloads_streamingUpdates base (MsgId.timeSuffix clock ("-model")) chunks ("") [],
      accText_eq, accGround_eq]
    simp [persistPayloads, String.empty_append]
  · intro hne
    rw [trace, setMsgsPayloads_cons_call, setMsgsPayloads_cons_persist,
      setMsgsPayloads_append, persistPayloads_cons_call, persistPayloads_cons_persist,
      persistPayloads_append,
      persistPayloads_streamingUpdates base (MsgId.timeSuffix clock ("-model")) chunks ("") []]
    rw [show setMsgsPayloads [AppEvent.persist (base ++
        [streamMsg (MsgId.timeSuffix clock ("-model"))
          (accText ("") chunks) (accGround [] chunks)])] = [] from rfl,
      List.append_nil,
      setMsgsPayloads_streamingUpdates_getLast base (MsgId.timeSuffix clock ("-model"))
        chunks ("") [] hne]
    rfl

theorem C4_witness :
    demoChunks ≠ []
  ∧ (setMsgsPayloads (handleStreamingChat [] (StreamSpec.run demoChunks none) 0)).getLast? =
      (persistPayloads (handleStreamingChat [] (StreamSpec.run demoChunks none) 0)).getLast? :=
  ⟨by decide, (C4_streaming_accumulation [] demoChunks 0).2.2 (by decide)⟩

/-- C6: a mid-stream failure discards the partial accumulation: the persisted
updates are exactly the placeholder persist and a final persist of the
pre-placeholder messages plus a fresh error-only message — the placeholder
text and the partial chunk text appear in neither. -/
theorem C6_midstream_failure_discards_partial (base : List Message)
    (chunks : List Chunk) (e : String) (clock : Nat) :
    persistPayloads (handleStreamingChat base (StreamSpec.run chunks (some e)) clock) =
      [base ++ [streamMsg (MsgId.timeSuffix clock ("-model")) ("...") []],
       base ++ [errMsg (MsgId.time (clock + 1)) e]]
  ∧ (errMsg (MsgId.time (clock + 1)) e).text = ""
  ∧ (errMsg (MsgId.time (clock + 1)) e).error = some e
  ∧ MsgId.time (clock + 1) ≠ MsgId.timeSuffix clock ("-model") := by
  refine ⟨?_, rfl, rfl, by intro h; exact MsgId.noConfusion h⟩
  have trace : handleStreamingChat base (StreamSpec.run chunks (some e)) clock =
      AppEvent.callChatStream ::
        AppEvent.persist (base ++
          [streamMsg (MsgId.timeSuffix clock ("-model")) ("...") []]) ::
          (streamingUpdates base (MsgId.timeSuffix clock ("-model")) ("") [] chunks ++
            [AppEvent.persist (base ++ [errMsg (MsgId.time (clock + 1)) e])]) := rfl
  rw [trace, persistPayloads_cons_call, persistPayloads_cons_persist,
    persistPayloads_append,
    persistPayloads_streamingUpdates base (MsgId.timeSuffix clock ("-model")) chunks ("") []]
  rfl

end Ripo
